import Mathlib

/-!
Shallow embedding of the `ai-widget-backend` service (`src/app.py`, `src/rules.py`)
and verification of the specification claims about it.

Modelling conventions:
* Python strings are Lean `String`s; `str.lower`, `str.strip`, `str.replace`,
  `str.startswith` and the `in` substring test are modelled character-by-character
  on `List Char` (ASCII case folding, as all data handled by the service is ASCII).
* The process-global `USAGE_COUNTER` (a `defaultdict(int)`) is threaded explicitly
  as a total function `String → Nat` defaulting to `0`.
* External effects (DNS resolution via `socket.gethostbyname`, IP parsing via
  `ipaddress.ip_address`, and the HTTP GET performed by `httpx`) are environment
  oracles passed as parameters; a theorem quantifying over them holds for every
  network environment.
* `fastapi.HTTPException` and `ValueError` become `Except` errors carrying the
  same status codes and detail strings as the source.
-/

namespace AiWidget

/-! ### Python string primitives -/

/-- ASCII case folding of one character, as Python `str.lower` acts on ASCII. -/
def lowerChar (c : Char) : Char :=
  if 'A' ≤ c ∧ c ≤ 'Z' then Char.ofNat (c.toNat + 32) else c

/-- Python `s.lower()`. -/
def pyLower (s : String) : String := String.mk (s.data.map lowerChar)

/-- Python `s.strip()`: drop whitespace from both ends. -/
def pyStrip (s : String) : String :=
  String.mk (((s.data.dropWhile Char.isWhitespace).reverse.dropWhile
      Char.isWhitespace).reverse)

/-- `startsList pat s` is true when `s` begins with `pat`. -/
def startsList : List Char → List Char → Bool
  | [], _ => true
  | _ :: _, [] => false
  | p :: ps, c :: cs => p == c && startsList ps cs

/-- `hasSubList pat s` is true when `pat` occurs contiguously inside `s`. -/
def hasSubList (pat : List Char) : List Char → Bool
  | [] => startsList pat []
  | c :: cs => startsList pat (c :: cs) || hasSubList pat cs

/-- Python `pat in s` (substring containment). -/
def pyIn (pat s : String) : Bool := hasSubList pat.data s.data

/-- Python `s.startswith(pat)`. -/
def pyStarts (s pat : String) : Bool := startsList pat.data s.data

/-- Worker for Python `s.replace(pat, rep)`: `skip` counts characters of a
just-matched occurrence still to be consumed without re-matching. -/
def replaceGo (pat rep : List Char) : List Char → Nat → List Char
  | [], _ => []
  | _ :: cs, skip + 1 => replaceGo pat rep cs skip
  | c :: cs, 0 =>
    if pat.isEmpty = false ∧ startsList pat (c :: cs) = true then
      rep ++ replaceGo pat rep cs (pat.length - 1)
    else
      c :: replaceGo pat rep cs 0

/-- Python `s.replace(pat, rep)`: replace all non-overlapping occurrences,
left to right (empty patterns do not occur in the source). -/
def replaceList (pat rep s : List Char) : List Char :=
  replaceGo pat rep s 0

/-- Python `s.replace(pat, rep)` on `String`. -/
def pyReplace (s pat rep : String) : String :=
  String.mk (replaceList pat.data rep.data s.data)

/-- Python `" ".join(l)`. -/
def joinSp : List String → String
  | [] => ""
  | [s] => s
  | s :: rest => s ++ " " ++ joinSp rest

/-! ### API key registry (`API_KEYS` in `src/app.py`) -/

structure Branding where
  name : String
  logo_url : String
  primary : String
  grad1 : String
  grad2 : String
deriving Repr, DecidableEq

structure ClientData where
  key : String
  domains : List String
  branding : Branding
deriving Repr, DecidableEq

def acmeBranding : Branding :=
  { name := "Acme AI", logo_url := "", primary := "#0b1020"
    grad1 := "#1e50a0", grad2 := "#28aabe" }

def demoBranding : Branding :=
  { name := "AI Widget", logo_url := "", primary := "#0b1020"
    grad1 := "#1e50a0", grad2 := "#28aabe" }

/-- The static registry, in dict insertion order. -/
def API_KEYS : List (String × ClientData) :=
  [("acme", { key := "cust_live_acme_9xK2", domains := ["acme.com"],
              branding := acmeBranding }),
   ("demo", { key := "cust_demo_123", domains := ["localhost", "github.io"],
              branding := demoBranding })]

/-! ### Usage counter (`USAGE_COUNTER`, a `defaultdict(int)`) -/

def Usage : Type := String → Nat

/-- `USAGE_COUNTER[client] += 1`. -/
def bump (u : Usage) (client : String) : Usage :=
  fun c => if c = client then u c + 1 else u c

/-- An `HTTPException(status_code, detail)`. -/
structure HErr where
  status : Nat
  detail : String
deriving Repr, DecidableEq

/-! ### `verify_api_key` -/

/-- The `for client, data in API_KEYS.items()` loop of `verify_api_key`,
over an explicit registry list.  `origin` is already lowercased. -/
def verifyLoop (key origin : String) (u : Usage) :
    List (String × ClientData) → Except HErr String × Usage
  | [] => (Except.error ⟨403, "Invalid API key"⟩, u)
  | (client, dta) :: rest =>
    if key = dta.key then
      if !dta.domains.isEmpty && !(dta.domains.contains "*")
          && !(dta.domains.any fun d => pyIn (pyLower d) origin) then
        (Except.error ⟨403, "Domain not allowed for this API key"⟩, u)
      else
        (Except.ok client, bump u client)
    else verifyLoop key origin u rest

/-- `verify_api_key(authorization, request)` with the `Authorization` and
`Origin` headers made explicit and the usage counter threaded through.
Returns the authenticated client id or an `HTTPException`, together with the
resulting usage state. -/
def verify_api_key (authorization : Option String) (originHeader : Option String)
    (u : Usage) : Except HErr String × Usage :=
  match authorization with
  | none => (Except.error ⟨401, "Missing API key"⟩, u)
  | some auth =>
    if auth = "" then (Except.error ⟨401, "Missing API key"⟩, u)
    else if pyStarts auth "Bearer " = false then
      (Except.error ⟨401, "Invalid auth format"⟩, u)
    else
      let key := pyStrip (pyReplace auth "Bearer " "")
      let origin := pyLower (originHeader.getD "")
      verifyLoop key origin u API_KEYS

/-! ### Ranking logic (`SERVICE_LIBRARY`, `OFFERING_HINTS`, `rank_services`) -/

/-- The signals dict produced by `extract_signals_from_html` and consumed by
`rank_services`: `{"title": ..., "description": ..., "snippet": ...}`. -/
structure Signals where
  title : String
  description : String
  snippet : String
deriving Repr, DecidableEq

def emptySignals : Signals := { title := "", description := "", snippet := "" }

structure ServiceItem where
  service : String
  keywords : List String
  fits_goals : List String
deriving Repr, DecidableEq

def SERVICE_LIBRARY : List ServiceItem :=
  [{ service := "Website copywriting",
     keywords := ["copy", "headline", "messaging", "positioning", "brand voice",
                  "landing page"],
     fits_goals := ["leads", "lead generation", "conversion", "sales"] },
   { service := "Landing page creation",
     keywords := ["landing", "conversion", "cta", "signup", "book a call", "funnel"],
     fits_goals := ["leads", "lead generation", "conversion", "sales"] },
   { service := "SEO optimization",
     keywords := ["seo", "search", "keywords", "ranking", "google", "organic traffic"],
     fits_goals := ["traffic", "leads", "growth"] },
   { service := "Lead funnel optimization",
     keywords := ["crm", "pipeline", "funnel", "lead", "automation", "forms"],
     fits_goals := ["leads", "lead generation", "conversion"] },
   { service := "Paid ads setup",
     keywords := ["google ads", "meta ads", "facebook ads", "ppc", "paid search"],
     fits_goals := ["leads", "sales", "growth"] },
   { service := "Email nurture sequence",
     keywords := ["email", "newsletter", "nurture", "drip", "automation"],
     fits_goals := ["leads", "conversion", "retention"] }]

def OFFERING_HINTS : List (String × String) :=
  [("seo", "SEO optimization"),
   ("paid ads", "Paid ads setup"),
   ("google ads", "Paid ads setup"),
   ("facebook ads", "Paid ads setup"),
   ("copywriting", "Website copywriting"),
   ("landing page", "Landing page creation"),
   ("email marketing", "Email nurture sequence")]

/-- One `{service, score, why}` result entry. -/
structure Ranked where
  service : String
  score : Int
  why : String
deriving Repr, DecidableEq

/-- Body of the `for item in SERVICE_LIBRARY` loop of `rank_services`:
base score 30, industry boost +10, goal boost +25, keyword boost
`min(25, hits * 6)`, already-offered penalty −18, clamped to `[5, 99]`,
with the accumulated reason strings joined by spaces. -/
def scoreService (industry_l goal_l goal corpus : String)
    (already_offers : List String) (item : ServiceItem) : Ranked :=
  let score : Int := 30
  let indB := pyIn "marketing" industry_l || pyIn "agency" industry_l
  let score := if indB then score + 10 else score
  let reasons : List String :=
    if indB then ["Industry suggests marketing-led growth."] else []
  let goalB := item.fits_goals.any fun g => pyIn g goal_l
  let score := if goalB then score + 25 else score
  let reasons := reasons ++
    (if goalB then ["Matches your goal: “" ++ goal ++ "”."] else [])
  let hits : Nat := item.keywords.countP fun kw => pyIn (pyLower kw) corpus
  let score := if hits ≠ 0 then score + min 25 ((hits : Int) * 6) else score
  let reasons := reasons ++
    (if hits ≠ 0 then ["Website content indicates this would be impactful."] else [])
  let offered := already_offers.contains item.service
  let score := if offered then score - 18 else score
  let reasons := reasons ++
    (if offered then ["Your website already mentions offering something similar."]
     else [])
  let score := max 5 (min 99 score)
  let why := if reasons.isEmpty then "Based on the inputs provided." else joinSp reasons
  { service := item.service, score := score, why := why }

/-- Stable insertion step for descending order by score: a new element goes
in front of the first entry with a score not above its own, so an earlier
element keeps its place ahead of later equal-scoring ones. -/
def insertDesc (a : Ranked) : List Ranked → List Ranked
  | [] => [a]
  | b :: bs => if b.score ≤ a.score then a :: b :: bs else b :: insertDesc a bs

/-- Python's stable `results.sort(key=lambda x: x["score"], reverse=True)`:
descending by score, ties keeping their original relative order. -/
def sortDesc : List Ranked → List Ranked
  | [] => []
  | a :: as => insertDesc a (sortDesc as)

/-- `rank_services(industry, goal, target_signals, embed_signals)`. -/
def rank_services (industry goal : String) (target embedS : Signals) :
    List Ranked :=
  let industry_l := pyLower industry
  let goal_l := pyLower goal
  let corpus := pyLower (joinSp [target.title, target.description, target.snippet,
    embedS.title, embedS.description, embedS.snippet])
  let already_offers :=
    (OFFERING_HINTS.filter fun h => pyIn h.fst corpus).map Prod.snd
  let results :=
    SERVICE_LIBRARY.map (scoreService industry_l goal_l goal corpus already_offers)
  (sortDesc results).take 5

/-! ### SSRF guards (`_is_private_ip`, `_safe_http_url`) -/

/-- The classification flags of an `ipaddress` address object. -/
structure IpInfo where
  is_private : Bool
  is_loopback : Bool
  is_link_local : Bool
  is_reserved : Bool
  is_multicast : Bool
deriving Repr, DecidableEq

/-- `_is_private_ip(ip)`; `ipParse` models `ipaddress.ip_address`
(`none` = the constructor raises, which the `except` turns into `True`). -/
def _is_private_ip (ipParse : String → Option IpInfo) (ip : String) : Bool :=
  match ipParse ip with
  | none => true
  | some o =>
    o.is_private || o.is_loopback || o.is_link_local || o.is_reserved
      || o.is_multicast

/-- `re.match(r"^https?://", url, re.I)`. -/
def matchesHttpScheme (url : String) : Bool :=
  pyStarts (pyLower url) "http://" || pyStarts (pyLower url) "https://"

/-- A character that terminates the netloc component in `urlparse`. -/
def netlocEnd (c : Char) : Bool := c == '/' || c == '?' || c == '#'

/-- The components of `urllib.parse.urlparse` that `_safe_http_url` uses:
`rest` is everything between netloc and fragment (path, params, query). -/
structure ParsedUrl where
  scheme : String
  netloc : String
  rest : String
  fragment : String
deriving Repr, DecidableEq

/-- `urlparse(url)` for URLs with an `http(s)://` scheme (after
`_safe_http_url` has prepended one, every parsed URL matches
`^https?://` case-insensitively; the fallback branch mirrors urlparse's
empty scheme/netloc on other inputs and is unreachable in the service). -/
def urlparseHttp (url : String) : ParsedUrl :=
  let low := pyLower url
  if pyStarts low "https://" ∨ pyStarts low "http://" then
    let scheme := if pyStarts low "https://" then "https" else "http"
    let remainder := url.data.drop (scheme.length + 3)
    let netloc := remainder.takeWhile fun c => !netlocEnd c
    let after := remainder.dropWhile fun c => !netlocEnd c
    let rest := after.takeWhile fun c => c != '#'
    let frag := (after.dropWhile fun c => c != '#').drop 1
    { scheme := scheme, netloc := String.mk netloc, rest := String.mk rest,
      fragment := String.mk frag }
  else
    { scheme := "", netloc := "", rest := url, fragment := "" }

/-- The `hostname` property of a parse result: the part of the netloc after
the last `@` and before the first `:`, lowercased (empty when absent). -/
def hostnameOf (netloc : String) : String :=
  let afterAt := (netloc.data.reverse.takeWhile fun c => c != '@').reverse
  pyLower (String.mk (afterAt.takeWhile fun c => c != ':'))

/-- `p._replace(fragment="").geturl()` for the URLs the service builds
(scheme and netloc both present). -/
def geturlNoFrag (p : ParsedUrl) : String :=
  p.scheme ++ "://" ++ p.netloc ++ p.rest

/-- `_safe_http_url(url)`.  `resolve` models `socket.gethostbyname`
(`none` = raises).  Note the source's inner "Private/internal IPs are not
allowed" `ValueError` is caught by its own `except Exception` and re-raised
as "Could not resolve hostname safely". -/
def _safe_http_url (ipParse : String → Option IpInfo)
    (resolve : String → Option String) (url : String) : Except String String :=
  if url = "" then Except.error "Empty URL"
  else
    let url1 := pyStrip url
    let url2 := if matchesHttpScheme url1 then url1 else "https://" ++ url1
    let p := urlparseHttp url2
    if p.scheme ≠ "http" ∧ p.scheme ≠ "https" then
      Except.error "URL must start with http:// or https://"
    else if hostnameOf p.netloc = "" then
      Except.error "URL must include a hostname"
    else
      let host := pyLower (hostnameOf p.netloc)
      if host = "localhost" ∨ host = "127.0.0.1" ∨ host = "0.0.0.0" then
        Except.error "Localhost URLs are not allowed"
      else
        match resolve host with
        | none => Except.error "Could not resolve hostname safely"
        | some ip =>
          if _is_private_ip ipParse ip then
            Except.error "Could not resolve hostname safely"
          else
            Except.ok (geturlNoFrag p)

/-! ### `fetch_public_page_text` and the endpoints -/

/-- Python slicing `s[:n]` for an arbitrary (possibly negative) `int` bound. -/
def pySlice (s : String) (n : Int) : String :=
  if 0 ≤ n then String.mk (s.data.take n.toNat)
  else String.mk (s.data.take (s.data.length - (-n).toNat))

/-- `fetch_public_page_text(url, max_chars)` (the source defaults
`max_chars` to `200_000`).  `httpGet` models the `httpx` GET: `none` is a
raised transport error, `some (status, body)` a response with `r.text = body`. -/
def fetch_public_page_text (ipParse : String → Option IpInfo)
    (resolve : String → Option String) (httpGet : String → Option (Nat × String))
    (url : String) (max_chars : Int) : Except String String :=
  match _safe_http_url ipParse resolve url with
  | Except.error e => Except.error e
  | Except.ok safe_url =>
    match httpGet safe_url with
    | none => Except.error "request error"
    | some (status, body) =>
      if 400 ≤ status then Except.error ("Website returned " ++ toString status)
      else Except.ok (pySlice body max_chars)

/-- The request body of `/recommend`. -/
structure RequestData where
  website_url : String
  industry : String
  goal : String
deriving Repr, DecidableEq

structure DebugInfo where
  origin : String
  target_fetch_error : String
  embed_fetch_error : String
deriving Repr, DecidableEq

structure RecResponse where
  client : String
  branding : Option Branding
  ranked_services : List Ranked
  debug : DebugInfo
deriving Repr, DecidableEq

/-- One `try: html = await fetch...; signals = extract... except` block of
`recommend`: the signals stay empty and the error message is kept when the
fetch raises.  `extract` models `extract_signals_from_html` (a total
function of the fetched HTML; its internals are not needed by any claim). -/
def fetchSignals (ipParse : String → Option IpInfo)
    (resolve : String → Option String) (httpGet : String → Option (Nat × String))
    (extract : String → Signals) (url : String) : Signals × String :=
  match fetch_public_page_text ipParse resolve httpGet url 200000 with
  | Except.ok html => (extract html, "")
  | Except.error e => (emptySignals, e)

/-- The `/recommend` endpoint. -/
def recommend (ipParse : String → Option IpInfo)
    (resolve : String → Option String) (httpGet : String → Option (Nat × String))
    (extract : String → Signals) (dta : RequestData)
    (authorization originHeader : Option String) (u : Usage) :
    Except HErr RecResponse × Usage :=
  match verify_api_key authorization originHeader u with
  | (Except.error e, u') => (Except.error e, u')
  | (Except.ok client, u') =>
    let ts := fetchSignals ipParse resolve httpGet extract dta.website_url
    let origin := originHeader.getD ""
    let es :=
      if origin ≠ "" then fetchSignals ipParse resolve httpGet extract origin
      else (emptySignals, "")
    let ranked := rank_services dta.industry dta.goal ts.fst es.fst
    (Except.ok
      { client := client,
        branding := (API_KEYS.lookup client).map ClientData.branding,
        ranked_services := ranked,
        debug := { origin := origin, target_fetch_error := ts.snd,
                   embed_fetch_error := es.snd } }, u')

structure UsageResponse where
  client : String
  usage : Nat
deriving Repr, DecidableEq

/-- The `/usage/me` endpoint (reads the counter after `verify_api_key`
has incremented it). -/
def usage_me (authorization originHeader : Option String) (u : Usage) :
    Except HErr UsageResponse × Usage :=
  match verify_api_key authorization originHeader u with
  | (Except.error e, u') => (Except.error e, u')
  | (Except.ok client, u') =>
    (Except.ok { client := client, usage := u' client }, u')

/-! ### `src/rules.py` -/

set_option linter.unusedVariables false in
/-- `recommend_services(industry, company_size, goal)` from `src/rules.py`
(`company_size` is never used by the body). -/
def recommend_services (industry : String) (company_size : String)
    (goal : String) : List String :=
  if pyLower industry = "publishing" then
    ["Copy editing", "Proofreading", "Content distribution"]
  else if pyLower goal = "lead generation" then
    ["Website copywriting", "Landing page creation", "SEO optimization"]
  else
    ["Content strategy", "Website content audit"]

/-- The hostname `_safe_http_url` extracts from an input URL (after
stripping, scheme-prepending, parsing and lowercasing): the specification-side
projection used to state the SSRF-guard claims. -/
def requestedHost (url : String) : String :=
  pyLower (hostnameOf (urlparseHttp (if matchesHttpScheme (pyStrip url)
    then pyStrip url else "https://" ++ pyStrip url)).netloc)

/-! Concrete environment oracles used by witnesses and counterexamples. -/

/-- An address object with every classification flag clear (a public IP). -/
def pubIpInfo : IpInfo :=
  { is_private := false, is_loopback := false, is_link_local := false,
    is_reserved := false, is_multicast := false }

/-- An `ipaddress` model that parses every string as a public address. -/
def oracleParsePub : String → Option IpInfo := fun _ => some pubIpInfo

/-- A resolver that resolves every hostname to a public address. -/
def oracleResolvePub : String → Option String := fun _ => some "93.184.216.34"

/-- A resolver for which every DNS lookup fails. -/
def oracleResolveNone : String → Option String := fun _ => none

/-- An HTTP client whose every GET returns status 200 with body `"abc"`. -/
def oracleHttpAbc : String → Option (Nat × String) := fun _ => some (200, "abc")

/-- An HTTP client whose every GET raises. -/
def oracleHttpNone : String → Option (Nat × String) := fun _ => none

/-- An HTML signal extractor returning empty signals on every page. -/
def oracleExtractEmpty : String → Signals := fun _ => emptySignals

/-! ### Helper lemmas -/

theorem mem_insertDesc {x a : Ranked} {l : List Ranked} :
    x ∈ insertDesc a l ↔ x = a ∨ x ∈ l := by
  induction l with
  | nil => simp [insertDesc]
  | cons b bs ih =>
    by_cases h : b.score ≤ a.score
    · simp [insertDesc, h]
    · simp [insertDesc, h, ih]
      tauto

theorem length_insertDesc (a : Ranked) (l : List Ranked) :
    (insertDesc a l).length = l.length + 1 := by
  induction l with
  | nil => rfl
  | cons b bs ih =>
    by_cases h : b.score ≤ a.score
    · simp [insertDesc, h]
    · simp [insertDesc, h, ih]

theorem pairwise_insertDesc {a : Ranked} {l : List Ranked}
    (hl : l.Pairwise fun x y => y.score ≤ x.score) :
    (insertDesc a l).Pairwise fun x y => y.score ≤ x.score := by
  induction l with
  | nil => simp [insertDesc]
  | cons b bs ih =>
    rw [List.pairwise_cons] at hl
    by_cases h : b.score ≤ a.score
    · rw [insertDesc, if_pos h, List.pairwise_cons]
      refine ⟨?_, List.pairwise_cons.mpr hl⟩
      intro y hy
      rcases List.mem_cons.mp hy with rfl | hy
      · exact h
      · exact le_trans (hl.1 y hy) h
    · rw [insertDesc, if_neg h, List.pairwise_cons]
      refine ⟨?_, ih hl.2⟩
      intro y hy
      rcases mem_insertDesc.mp hy with rfl | hy
      · omega
      · exact hl.1 y hy

theorem sortDesc_pairwise (l : List Ranked) :
    (sortDesc l).Pairwise fun x y => y.score ≤ x.score := by
  induction l with
  | nil => simp [sortDesc]
  | cons a as ih => exact pairwise_insertDesc ih

theorem mem_sortDesc {x : Ranked} {l : List Ranked} :
    x ∈ sortDesc l ↔ x ∈ l := by
  induction l with
  | nil => exact Iff.rfl
  | cons a as ih => simp [sortDesc, mem_insertDesc, ih]

theorem append_space_ne (s t : String) : s ++ " " ++ t ≠ "" := by
  intro h
  have h1 : (s ++ " " ++ t).length = 0 := by rw [h]; rfl
  rw [String.length_append, String.length_append] at h1
  have h2 : (" " : String).length = 1 := rfl
  omega

theorem append_left_ne (s t : String) (h : s.length ≠ 0) : s ++ t ≠ "" := by
  intro he
  have h1 : (s ++ t).length = 0 := by rw [he]; rfl
  rw [String.length_append] at h1
  omega

theorem goalReason_ne (goal : String) :
    ("Matches your goal: “" ++ goal ++ "”.") ≠ "" := by
  intro h
  have h1 : ("Matches your goal: “" ++ goal ++ "”.").length = 0 := by rw [h]; rfl
  rw [String.length_append, String.length_append] at h1
  have h2 : ("Matches your goal: “" : String).length = 20 := rfl
  omega

theorem scoreService_why_ne (industry_l goal_l goal corpus : String)
    (already : List String) (item : ServiceItem) :
    (scoreService industry_l goal_l goal corpus already item).why ≠ "" := by
  unfold scoreService
  dsimp only
  cases h1 : pyIn "marketing" industry_l || pyIn "agency" industry_l <;>
    cases h2 : item.fits_goals.any (fun g => pyIn g goal_l) <;>
      by_cases h3 : (item.keywords.countP fun kw => pyIn (pyLower kw) corpus) = 0 <;>
        cases h4 : already.contains item.service <;>
          simp [h1, h2, h3, h4, joinSp] <;>
            first
              | decide
              | exact append_space_ne _ _
              | exact goalReason_ne goal
              | exact append_left_ne _ _ (by decide)

theorem scoreService_score_range (industry_l goal_l goal corpus : String)
    (already : List String) (item : ServiceItem) :
    5 ≤ (scoreService industry_l goal_l goal corpus already item).score
      ∧ (scoreService industry_l goal_l goal corpus already item).score ≤ 99 := by
  unfold scoreService
  dsimp only
  constructor
  · exact le_max_left _ _
  · exact max_le (by norm_num) (min_le_left _ _)

theorem verifyLoop_cases (key origin : String) (u : Usage)
    (registry : List (String × ClientData)) :
    (∃ client, verifyLoop key origin u registry
        = (Except.ok client, bump u client))
    ∨ (∃ e, verifyLoop key origin u registry = (Except.error e, u)) := by
  induction registry with
  | nil => right; exact ⟨_, rfl⟩
  | cons hd tl ih =>
    obtain ⟨c, dta⟩ := hd
    rw [verifyLoop]
    by_cases hk : key = dta.key
    · rw [if_pos hk]
      by_cases hc : (!dta.domains.isEmpty && !(dta.domains.contains "*")
          && !(dta.domains.any fun d => pyIn (pyLower d) origin)) = true
      · rw [if_pos hc]; right; exact ⟨_, rfl⟩
      · rw [if_neg hc]; left; exact ⟨c, rfl⟩
    · rw [if_neg hk]; exact ih

theorem verifyLoop_nomatch (key origin : String) (u : Usage)
    (registry : List (String × ClientData))
    (h : ∀ p ∈ registry, key ≠ p.2.key) :
    verifyLoop key origin u registry
      = (Except.error ⟨403, "Invalid API key"⟩, u) := by
  induction registry with
  | nil => rfl
  | cons hd tl ih =>
    obtain ⟨c, dta⟩ := hd
    rw [verifyLoop, if_neg (h (c, dta) (List.mem_cons_self _ _))]
    exact ih fun p hp => h p (List.mem_cons_of_mem _ hp)

theorem verify_cases (auth originH : Option String) (u : Usage) :
    (∃ client, verify_api_key auth originH u
        = (Except.ok client, bump u client))
    ∨ (∃ e, verify_api_key auth originH u = (Except.error e, u)) := by
  cases auth with
  | none => right; exact ⟨_, rfl⟩
  | some a =>
    simp only [verify_api_key]
    by_cases h0 : a = ""
    · rw [if_pos h0]; right; exact ⟨_, rfl⟩
    · rw [if_neg h0]
      by_cases h1 : pyStarts a "Bearer " = false
      · rw [if_pos h1]; right; exact ⟨_, rfl⟩
      · rw [if_neg h1]; exact verifyLoop_cases _ _ _ _

theorem verify_ok_snd {auth originH : Option String} {u : Usage} {client : String}
    (h : (verify_api_key auth originH u).fst = Except.ok client) :
    (verify_api_key auth originH u).snd = bump u client := by
  rcases verify_cases auth originH u with ⟨c, hc⟩ | ⟨e, he⟩
  · rw [hc] at h ⊢
    simp at h
    rw [h]
  · rw [he] at h
    simp at h

theorem verify_error_snd {auth originH : Option String} {u : Usage} {e : HErr}
    (h : (verify_api_key auth originH u).fst = Except.error e) :
    (verify_api_key auth originH u).snd = u := by
  rcases verify_cases auth originH u with ⟨c, hc⟩ | ⟨e', he⟩
  · rw [hc] at h; simp at h
  · rw [he]

theorem bump_self (u : Usage) (c : String) : bump u c c = u c + 1 := by
  simp [bump]

theorem bump_other (u : Usage) (c other : String) (h : other ≠ c) :
    bump u c other = u other := by
  simp [bump, h]

theorem startsList_self_append : ∀ l m : List Char, startsList l (l ++ m) = true
  | [], _ => rfl
  | c :: cs, m => by simp [startsList, startsList_self_append cs m]

theorem pyStarts_append (s t : String) : pyStarts (s ++ t) s = true := by
  rw [pyStarts, String.data_append]
  exact startsList_self_append _ _

theorem pySlice_length_le (s : String) (n : Int) (h : 0 ≤ n) :
    ((pySlice s n).length : Int) ≤ n := by
  rw [pySlice, if_pos h, String.length_mk, List.length_take]
  have h1 : min n.toNat s.data.length ≤ n.toNat := Nat.min_le_left _ _
  have h2 := Int.toNat_of_nonneg h
  omega

theorem safe_url_ok_main (ipParse : String → Option IpInfo)
    (resolve : String → Option String) (url n : String)
    (h : _safe_http_url ipParse resolve url = Except.ok n) :
    requestedHost url ≠ "localhost"
    ∧ requestedHost url ≠ "127.0.0.1"
    ∧ requestedHost url ≠ "0.0.0.0"
    ∧ (∃ ip, resolve (requestedHost url) = some ip
        ∧ ∃ info, ipParse ip = some info
            ∧ info.is_private = false ∧ info.is_loopback = false
            ∧ info.is_link_local = false ∧ info.is_reserved = false
            ∧ info.is_multicast = false)
    ∧ (pyStarts n "http://" = true ∨ pyStarts n "https://" = true) := by
  simp only [_safe_http_url] at h
  simp only [requestedHost]
  set U := if matchesHttpScheme (pyStrip url) then pyStrip url
    else "https://" ++ pyStrip url with hU
  split at h
  · simp at h
  split at h
  · simp at h
  split at h
  · simp at h
  split at h
  · simp at h
  split at h
  · simp at h
  split at h
  · simp at h
  next hscheme hhostname hblock hscrut ip hres hpriv =>
    push_neg at hblock
    obtain ⟨b1, b2, b3⟩ := hblock
    simp only [Except.ok.injEq] at h
    refine ⟨b1, b2, b3, ⟨ip, hres, ?_⟩, ?_⟩
    · cases hinfo : ipParse ip with
      | none => rw [_is_private_ip, hinfo] at hpriv; simp at hpriv
      | some info =>
        rw [_is_private_ip, hinfo] at hpriv
        simp only [Bool.or_eq_true, not_or, Bool.not_eq_true] at hpriv
        obtain ⟨⟨⟨⟨f1, f2⟩, f3⟩, f4⟩, f5⟩ := hpriv
        exact ⟨info, rfl, f1, f2, f3, f4, f5⟩
    · rcases not_and_or.mp hscheme with hs | hs
      · rw [not_not] at hs
        left
        rw [← h, geturlNoFrag, hs,
          show ("http" ++ "://" : String) = "http://" from rfl,
          String.append_assoc]
        exact pyStarts_append _ _
      · rw [not_not] at hs
        right
        rw [← h, geturlNoFrag, hs,
          show ("https" ++ "://" : String) = "https://" from rfl,
          String.append_assoc]
        exact pyStarts_append _ _

/-! ### Claim theorems -/

/-- C1 counterexample: the bearer token equals the registered `acme` client's
key and the Origin header is absent, yet `verify_api_key` does not
authenticate the request — it raises the domain-lock 403. -/
theorem C1_counterexample_absent_origin_rejected :
    (verify_api_key (some "Bearer cust_live_acme_9xK2") none (fun _ => 0)).fst
      = Except.error ⟨403, "Domain not allowed for this API key"⟩ := rfl

/-- C1 (amended): when the Origin header is absent the allowed-domain check
still runs against the empty origin string, so a bearer token equal to
either registered client's key is rejected with a 403 "Domain not allowed"
error (both registered clients have a non-empty domain list without "*"),
and the usage counter is left unchanged. -/
theorem C1_absent_origin_domain_check_applies :
    ∀ u : Usage,
      verify_api_key (some "Bearer cust_live_acme_9xK2") none u
        = (Except.error ⟨403, "Domain not allowed for this API key"⟩, u)
      ∧ verify_api_key (some "Bearer cust_demo_123") none u
        = (Except.error ⟨403, "Domain not allowed for this API key"⟩, u) :=
  fun _ => ⟨rfl, rfl⟩

/-- C3: every accepted call — through `verify_api_key` itself, `/usage/me`,
or `/recommend` — increments the usage counter of exactly the
authenticated client by exactly 1 and leaves every other client's count
unchanged. -/
theorem C3_accepted_call_bumps_exactly_client :
    ∀ (auth originH : Option String) (u : Usage),
      (∀ client, (verify_api_key auth originH u).fst = Except.ok client →
        (verify_api_key auth originH u).snd client = u client + 1
          ∧ ∀ other, other ≠ client →
              (verify_api_key auth originH u).snd other = u other)
      ∧ (∀ resp, (usage_me auth originH u).fst = Except.ok resp →
          (usage_me auth originH u).snd resp.client = u resp.client + 1
            ∧ ∀ other, other ≠ resp.client →
                (usage_me auth originH u).snd other = u other)
      ∧ (∀ ipParse resolve httpGet extract dta resp,
          (recommend ipParse resolve httpGet extract dta auth originH u).fst
              = Except.ok resp →
          (recommend ipParse resolve httpGet extract dta auth originH u).snd
              resp.client = u resp.client + 1
            ∧ ∀ other, other ≠ resp.client →
                (recommend ipParse resolve httpGet extract dta auth originH
                  u).snd other = u other) := by
  intro auth originH u
  refine ⟨?_, ?_, ?_⟩
  · intro client h
    rw [verify_ok_snd h]
    exact ⟨bump_self u client, fun other ho => bump_other u client other ho⟩
  · intro resp h
    rcases verify_cases auth originH u with ⟨c, hc⟩ | ⟨e, he⟩
    · unfold usage_me at h ⊢
      rw [hc] at h ⊢
      simp at h
      simp [← h]
      exact ⟨bump_self u c, fun other ho => bump_other u c other ho⟩
    · unfold usage_me at h
      rw [he] at h
      simp at h
  · intro ipParse resolve httpGet extract dta resp h
    rcases verify_cases auth originH u with ⟨c, hc⟩ | ⟨e, he⟩
    · unfold recommend at h ⊢
      rw [hc] at h ⊢
      simp at h
      simp [← h]
      exact ⟨bump_self u c, fun other ho => bump_other u c other ho⟩
    · unfold recommend at h
      rw [he] at h
      simp at h

/-- C3 witness: a concrete accepted `/usage/me` call with the demo key bumps
`demo` from 0 to 1 and leaves `acme` at 0. -/
theorem C3_witness :
    (verify_api_key (some "Bearer cust_demo_123") (some "http://localhost:3000")
        (fun _ => 0)).snd "demo" = 1
      ∧ (verify_api_key (some "Bearer cust_demo_123")
          (some "http://localhost:3000") (fun _ => 0)).snd "acme" = 0 := by
  have h := (C3_accepted_call_bumps_exactly_client (some "Bearer cust_demo_123")
    (some "http://localhost:3000") (fun _ => 0)).1 "demo" rfl
  exact ⟨h.1, h.2 "acme" (by decide)⟩

/-- C5: `verify_api_key` answers 401 when the Authorization header is absent
or does not start with "Bearer ", answers 403 "Invalid API key" when the
extracted key matches no registered client, and every failing path leaves
the usage counter unchanged. -/
theorem C5_auth_error_paths :
    ∀ (auth originH : Option String) (u : Usage),
      (auth = none →
        verify_api_key auth originH u
          = (Except.error ⟨401, "Missing API key"⟩, u))
      ∧ (∀ a, auth = some a → pyStarts a "Bearer " = false →
          ∃ d, verify_api_key auth originH u = (Except.error ⟨401, d⟩, u))
      ∧ (∀ a, auth = some a → pyStarts a "Bearer " = true →
          (∀ p ∈ API_KEYS, pyStrip (pyReplace a "Bearer " "") ≠ p.2.key) →
          verify_api_key auth originH u
            = (Except.error ⟨403, "Invalid API key"⟩, u))
      ∧ (∀ e, (verify_api_key auth originH u).fst = Except.error e →
          (verify_api_key auth originH u).snd = u) := by
  intro auth originH u
  refine ⟨?_, ?_, ?_, ?_⟩
  · rintro rfl; rfl
  · rintro a rfl hs
    by_cases h0 : a = ""
    · exact ⟨"Missing API key", by simp [verify_api_key, h0]⟩
    · exact ⟨"Invalid auth format", by simp [verify_api_key, h0, hs]⟩
  · rintro a rfl hs hn
    have h0 : a ≠ "" := by
      intro h
      rw [h] at hs
      exact absurd hs (by decide)
    simp only [verify_api_key, if_neg h0, hs]
    rw [if_neg (by decide : ¬(true = false))]
    exact verifyLoop_nomatch _ _ _ _ fun p hp => hn p hp
  · intro e h
    exact verify_error_snd h

/-- C5 witness: concrete failing calls — missing header, malformed header,
unknown key — each answer the claimed status and leave the counter of both
clients unchanged. -/
theorem C5_witness :
    verify_api_key none none (fun _ => 0)
        = (Except.error ⟨401, "Missing API key"⟩, fun _ => 0)
      ∧ (∃ d, verify_api_key (some "Basic xyz") none (fun _ => 0)
          = (Except.error ⟨401, d⟩, fun _ => 0))
      ∧ verify_api_key (some "Bearer nope") none (fun _ => 0)
          = (Except.error ⟨403, "Invalid API key"⟩, fun _ => 0) := by
  have h := C5_auth_error_paths none none (fun _ => 0)
  have h2 := C5_auth_error_paths (some "Basic xyz") none (fun _ => 0)
  have h3 := C5_auth_error_paths (some "Bearer nope") none (fun _ => 0)
  exact ⟨h.1 rfl, h2.2.1 "Basic xyz" rfl (by decide),
    h3.2.2.1 "Bearer nope" rfl (by decide) (by decide)⟩

/-- C2: the list returned by `rank_services` has length at most 5, is sorted
in non-increasing order of score, and every element carries a service name
from the library, a numeric score, and a non-empty "why" justification. -/
theorem C2_rank_services_shape :
    ∀ (industry goal : String) (target embedS : Signals),
      (rank_services industry goal target embedS).length ≤ 5
      ∧ (rank_services industry goal target embedS).Pairwise
          (fun a b => b.score ≤ a.score)
      ∧ ∀ r ∈ rank_services industry goal target embedS,
          (∃ item ∈ SERVICE_LIBRARY, r.service = item.service) ∧ r.why ≠ "" := by
  intro industry goal target embedS
  refine ⟨List.length_take_le _ _, ?_, ?_⟩
  · exact List.Pairwise.sublist (List.take_sublist _ _) (sortDesc_pairwise _)
  · intro r hr
    have hr3 := mem_sortDesc.mp (List.mem_of_mem_take hr)
    rcases List.mem_map.mp hr3 with ⟨item, hitem, heq⟩
    subst heq
    exact ⟨⟨item, hitem, rfl⟩, scoreService_why_ne _ _ _ _ _ _⟩

/-- C2 witness: the concrete call at industry "marketing" and goal
"lead generation" satisfies the shape properties; its top entry has a
non-empty justification. -/
theorem C2_witness :
    (rank_services "marketing" "lead generation" emptySignals
        emptySignals).length ≤ 5
      ∧ ({ service := "Website copywriting", score := 65,
           why := "Industry suggests marketing-led growth. Matches your goal: “lead generation”." }
          : Ranked).why ≠ "" := by
  have h := C2_rank_services_shape "marketing" "lead generation" emptySignals
    emptySignals
  exact ⟨h.1, (h.2.2 _ (by decide)).2⟩

/-- C9: every score produced by `rank_services` is an integer in `[5, 99]`:
the base 30 plus the industry (+10), goal (+25) and keyword (≤ +25) boosts
and the already-offered penalty (−18) is clamped into that range. -/
theorem C9_scores_in_range :
    ∀ (industry goal : String) (target embedS : Signals),
      ∀ r ∈ rank_services industry goal target embedS,
        5 ≤ r.score ∧ r.score ≤ 99 := by
  intro industry goal target embedS r hr
  have hr3 := mem_sortDesc.mp (List.mem_of_mem_take hr)
  rcases List.mem_map.mp hr3 with ⟨item, hitem, heq⟩
  subst heq
  exact scoreService_score_range _ _ _ _ _ _

/-- C9 witness: the concrete top entry of a concrete call is within bounds. -/
theorem C9_witness :
    5 ≤ ({ service := "Website copywriting", score := 65,
           why := "Industry suggests marketing-led growth. Matches your goal: “lead generation”." }
          : Ranked).score
      ∧ ({ service := "Website copywriting", score := 65,
           why := "Industry suggests marketing-led growth. Matches your goal: “lead generation”." }
          : Ranked).score ≤ 99 :=
  C9_scores_in_range "marketing" "lead generation" emptySignals emptySignals _
    (by decide)

/-- C10: `recommend_services` always returns 2 or 3 names; the
case-insensitive industry check for "publishing" takes precedence over the
goal check for "lead generation", each branch returns exactly the listed
services, and `company_size` never affects the result. -/
theorem C10_recommend_services_cases :
    ∀ (industry company_size goal : String),
      ((recommend_services industry company_size goal).length = 2
        ∨ (recommend_services industry company_size goal).length = 3)
      ∧ (pyLower industry = "publishing" →
          recommend_services industry company_size goal
            = ["Copy editing", "Proofreading", "Content distribution"])
      ∧ (pyLower industry ≠ "publishing" → pyLower goal = "lead generation" →
          recommend_services industry company_size goal
            = ["Website copywriting", "Landing page creation", "SEO optimization"])
      ∧ (pyLower industry ≠ "publishing" → pyLower goal ≠ "lead generation" →
          recommend_services industry company_size goal
            = ["Content strategy", "Website content audit"])
      ∧ (∀ size2, recommend_services industry company_size goal
          = recommend_services industry size2 goal) := by
  intro industry company_size goal
  unfold recommend_services
  by_cases h1 : pyLower industry = "publishing" <;>
    by_cases h2 : pyLower goal = "lead generation" <;>
      simp [h1, h2]

/-- C10 witness: the three branches at concrete inputs. -/
theorem C10_witness :
    recommend_services "Publishing" "large" "anything"
        = ["Copy editing", "Proofreading", "Content distribution"]
      ∧ recommend_services "tech" "x" "Lead Generation"
        = ["Website copywriting", "Landing page creation", "SEO optimization"]
      ∧ recommend_services "tech" "x" "brand"
        = ["Content strategy", "Website content audit"] :=
  ⟨(C10_recommend_services_cases "Publishing" "large" "anything").2.1 (by decide),
    (C10_recommend_services_cases "tech" "x" "Lead Generation").2.2.1 (by decide)
      (by decide),
    (C10_recommend_services_cases "tech" "x" "brand").2.2.2.1 (by decide)
      (by decide)⟩

/-- C4: whenever `_safe_http_url` succeeds, the extracted hostname is not
`localhost`, `127.0.0.1` or `0.0.0.0` and it resolves to an address that is
not private, loopback, link-local, reserved or multicast; whenever
resolution fails or yields such an address, `_safe_http_url` errors. -/
theorem C4_ssrf_guard :
    ∀ (ipParse : String → Option IpInfo) (resolve : String → Option String)
      (url normalized : String),
      (_safe_http_url ipParse resolve url = Except.ok normalized →
        requestedHost url ≠ "localhost"
        ∧ requestedHost url ≠ "127.0.0.1"
        ∧ requestedHost url ≠ "0.0.0.0"
        ∧ ∃ ip, resolve (requestedHost url) = some ip
            ∧ ∃ info, ipParse ip = some info
                ∧ info.is_private = false ∧ info.is_loopback = false
                ∧ info.is_link_local = false ∧ info.is_reserved = false
                ∧ info.is_multicast = false)
      ∧ ((resolve (requestedHost url) = none
            ∨ ∃ ip, resolve (requestedHost url) = some ip
                ∧ _is_private_ip ipParse ip = true) →
          ∃ e, _safe_http_url ipParse resolve url = Except.error e) := by
  intro ipParse resolve url normalized
  constructor
  · intro h
    obtain ⟨b1, b2, b3, hip, _⟩ := safe_url_ok_main ipParse resolve url normalized h
    exact ⟨b1, b2, b3, hip⟩
  · intro hbad
    cases hres : _safe_http_url ipParse resolve url with
    | error e => exact ⟨e, rfl⟩
    | ok v =>
      obtain ⟨_, _, _, ⟨ip, hip, info, hinfo, f1, f2, f3, f4, f5⟩, _⟩ :=
        safe_url_ok_main ipParse resolve url v hres
      rcases hbad with hnone | ⟨ip2, hip2, hpriv⟩
      · rw [hip] at hnone
        cases hnone
      · rw [hip] at hip2
        injection hip2 with hip2
        subst hip2
        rw [_is_private_ip, hinfo] at hpriv
        simp [f1, f2, f3, f4, f5] at hpriv

/-- C4 witness: with an all-public resolver the guard accepts
`http://example.com` and reports its resolved address; with a failing
resolver the guard errors. -/
theorem C4_witness :
    (requestedHost "http://example.com" ≠ "localhost"
      ∧ requestedHost "http://example.com" ≠ "127.0.0.1"
      ∧ requestedHost "http://example.com" ≠ "0.0.0.0"
      ∧ ∃ ip, oracleResolvePub (requestedHost "http://example.com") = some ip
          ∧ ∃ info, oracleParsePub ip = some info
              ∧ info.is_private = false ∧ info.is_loopback = false
              ∧ info.is_link_local = false ∧ info.is_reserved = false
              ∧ info.is_multicast = false)
    ∧ ∃ e, _safe_http_url oracleParsePub oracleResolveNone "http://example.com"
        = Except.error e :=
  ⟨(C4_ssrf_guard oracleParsePub oracleResolvePub "http://example.com"
      "http://example.com").1 rfl,
   (C4_ssrf_guard oracleParsePub oracleResolveNone "http://example.com"
      "http://example.com").2 (Or.inl rfl)⟩

/-- C6: an authenticated `/recommend` call never propagates a fetch error:
the response is always produced, and — independently of each other — when
fetching the target website fails the error message lands in the target
debug field with empty target signals fed to the scorer, and when the
embed-origin fetch fails the error message lands in the embed debug field
with empty embed signals fed to the scorer. -/
theorem C6_recommend_tolerates_fetch_failures :
    ∀ (ipParse : String → Option IpInfo) (resolve : String → Option String)
      (httpGet : String → Option (Nat × String)) (extract : String → Signals)
      (dta : RequestData) (auth originH : Option String) (u : Usage)
      (client : String),
      (verify_api_key auth originH u).fst = Except.ok client →
      ∃ resp,
        (recommend ipParse resolve httpGet extract dta auth originH u).fst
            = Except.ok resp
        ∧ (∀ e, fetch_public_page_text ipParse resolve httpGet
              dta.website_url 200000 = Except.error e →
            resp.debug.target_fetch_error = e
              ∧ resp.ranked_services
                  = rank_services dta.industry dta.goal emptySignals
                      (if originH.getD "" ≠ ""
                       then (fetchSignals ipParse resolve httpGet extract
                          (originH.getD "")).fst
                       else emptySignals))
        ∧ (originH.getD "" ≠ "" →
            ∀ e2, fetch_public_page_text ipParse resolve httpGet
                (originH.getD "") 200000 = Except.error e2 →
              resp.debug.embed_fetch_error = e2
                ∧ resp.ranked_services
                    = rank_services dta.industry dta.goal
                        (fetchSignals ipParse resolve httpGet extract
                          dta.website_url).fst
                        emptySignals) := by
  intro ipParse resolve httpGet extract dta auth originH u client hv
  rcases verify_cases auth originH u with ⟨c, hc⟩ | ⟨e', he⟩
  · unfold recommend
    rw [hc]
    refine ⟨_, rfl, ?_, ?_⟩
    · intro e hf
      constructor
      · simp [fetchSignals, hf]
      · simp only [fetchSignals, hf]
        by_cases ho : originH.getD "" ≠ ""
        · simp [ho]
        · simp [ho]
    · intro ho e2 hf2
      constructor
      · simp [fetchSignals, hf2, ho]
      · simp [fetchSignals, hf2, ho]
  · rw [he] at hv
    simp at hv

/-- C6 witness: two concrete authenticated calls — one where only the
embed-origin fetch fails (the target fetch succeeds) and one where the
target fetch fails on DNS — each still return a response carrying the
error message in the matching debug field. -/
theorem C6_witness :
    (∃ resp,
      (recommend oracleParsePub oracleResolvePub oracleHttpAbc
          oracleExtractEmpty
          { website_url := "http://example.com", industry := "tech",
            goal := "growth" }
          (some "Bearer cust_demo_123") (some "http://localhost:3000")
          (fun _ => 0)).fst = Except.ok resp
      ∧ resp.debug.embed_fetch_error = "Localhost URLs are not allowed")
    ∧ ∃ resp2,
      (recommend oracleParsePub oracleResolveNone oracleHttpNone
          oracleExtractEmpty
          { website_url := "http://example.com", industry := "tech",
            goal := "growth" }
          (some "Bearer cust_demo_123") (some "http://localhost:3000")
          (fun _ => 0)).fst = Except.ok resp2
      ∧ resp2.debug.target_fetch_error = "Could not resolve hostname safely" := by
  constructor
  · obtain ⟨resp, h1, _, hB⟩ := C6_recommend_tolerates_fetch_failures
      oracleParsePub oracleResolvePub oracleHttpAbc oracleExtractEmpty
      { website_url := "http://example.com", industry := "tech",
        goal := "growth" }
      (some "Bearer cust_demo_123") (some "http://localhost:3000")
      (fun _ => 0) "demo" rfl
    exact ⟨resp, h1,
      (hB (by decide) "Localhost URLs are not allowed" rfl).1⟩
  · obtain ⟨resp2, h1, hA, _⟩ := C6_recommend_tolerates_fetch_failures
      oracleParsePub oracleResolveNone oracleHttpNone oracleExtractEmpty
      { website_url := "http://example.com", industry := "tech",
        goal := "growth" }
      (some "Bearer cust_demo_123") (some "http://localhost:3000")
      (fun _ => 0) "demo" rfl
    exact ⟨resp2, h1,
      (hA "Could not resolve hostname safely" rfl).1⟩

/-- C7 counterexample: with `max_chars = -1` (a legal value for the `int`
parameter) the fetch returns `"ab"` from body `"abc"`, whose length 2 is
not at most `-1`. -/
theorem C7_counterexample_negative_max_chars :
    fetch_public_page_text oracleParsePub oracleResolvePub oracleHttpAbc
        "http://example.com" (-1) = Except.ok "ab"
      ∧ ¬ ((("ab" : String).length : Int) ≤ -1) :=
  ⟨rfl, by decide⟩

/-- C7 (amended): for every URL and every non-negative `max_chars` bound
(including the default 200,000), the text returned by
`fetch_public_page_text` has length at most `max_chars`, regardless of the
size of the fetched response body. -/
theorem C7_fetch_caps_length :
    ∀ (ipParse : String → Option IpInfo) (resolve : String → Option String)
      (httpGet : String → Option (Nat × String)) (url : String)
      (max_chars : Int) (text : String),
      0 ≤ max_chars →
      fetch_public_page_text ipParse resolve httpGet url max_chars
          = Except.ok text →
      (text.length : Int) ≤ max_chars := by
  intro ipParse resolve httpGet url mc text hmc h
  simp only [fetch_public_page_text] at h
  split at h
  · simp at h
  split at h
  · simp at h
  split at h
  · simp at h
  next =>
    simp only [Except.ok.injEq] at h
    rw [← h]
    exact pySlice_length_le _ _ hmc

/-- C7 witness: the default bound 200,000 caps a 3-character body at 3. -/
theorem C7_witness :
    ((("abc" : String).length : Int) ≤ 200000) :=
  C7_fetch_caps_length oracleParsePub oracleResolvePub oracleHttpAbc
    "http://example.com" 200000 "abc" (by decide) rfl

/-- C8 counterexample: `ftp://example.com` carries a scheme that is neither
http nor https, yet `_safe_http_url` does not reject it: the regex does not
match, `https://` is prepended, `ftp` becomes the hostname, and with a
resolver that resolves `ftp` publicly the call succeeds. -/
theorem C8_counterexample_ftp_not_rejected :
    pyStarts "ftp://example.com" "ftp://" = true
      ∧ matchesHttpScheme "ftp://example.com" = false
      ∧ _safe_http_url oracleParsePub oracleResolvePub "ftp://example.com"
          = Except.ok "https://ftp://example.com" :=
  ⟨rfl, rfl, rfl⟩

/-- C8 (amended): every URL on which `_safe_http_url` succeeds is returned
with scheme http or https; but a URL presented with a different scheme is
not rejected for its scheme — `https://` is prepended (the original scheme
token becomes the hostname) and the URL fails only if the remaining
hostname/DNS/private-address guards do. -/
theorem C8_success_scheme_http :
    ∀ (ipParse : String → Option IpInfo) (resolve : String → Option String)
      (url normalized : String),
      _safe_http_url ipParse resolve url = Except.ok normalized →
      pyStarts normalized "http://" = true
        ∨ pyStarts normalized "https://" = true := by
  intro ipParse resolve url normalized h
  exact (safe_url_ok_main ipParse resolve url normalized h).2.2.2.2

/-- C8 witness: a concrete successful validation returns an https URL. -/
theorem C8_witness :
    pyStarts "https://ftp://example.com" "http://" = true
      ∨ pyStarts "https://ftp://example.com" "https://" = true :=
  C8_success_scheme_http oracleParsePub oracleResolvePub "ftp://example.com"
    "https://ftp://example.com" rfl

example :
    (verify_api_key (some "Bearer cust_demo_123") (some "http://localhost:3000")
      (fun _ => 0)).fst = Except.ok "demo" := rfl

example :
    (verify_api_key (some "Bearer cust_live_acme_9xK2") none
      (fun _ => 0)).fst
      = Except.error ⟨403, "Domain not allowed for this API key"⟩ := rfl

example :
    (verify_api_key (some "Bearer cust_live_acme_9xK2") (some "https://acme.com")
      (fun _ => 0)).fst = Except.ok "acme" := rfl

end AiWidget
